import Mathlib

/-!
Verification development for the PaymentDataHandler backend.

The Python services are shallowly embedded: the two Mongo collections
become explicit lists of documents threaded through each operation,
Python floats become rationals (with pandas NaN modelled explicitly
where the CSV pipeline needs it), and the `round(x, 2)` builtin becomes
round-half-to-even on rationals.  Each embedded definition is named
after the source function it models.
-/

namespace PaymentApp

attribute [local semireducible] Rat.mul Rat.add Rat.sub Rat.inv

/-! ## Numeric helpers -/

/-- Round-half-to-even to the nearest integer, as Python's builtin `round`. -/
def roundHalfEven (q : ℚ) : ℤ :=
  let f : ℤ := Int.floor q
  let r : ℚ := q - (f : ℚ)
  if r < 1/2 then f
  else if 1/2 < r then f + 1
  else if f % 2 = 0 then f else f + 1

/-- Python `round(q, 2)`: round to two decimal places, ties to even. -/
def round2 (q : ℚ) : ℚ := (roundHalfEven (q * 100) : ℚ) / 100

/-! ## String helpers -/

/-- Hex digit test, as accepted by `bson.ObjectId` for string input. -/
def hexDigit (c : Char) : Bool :=
  c.isDigit || (('a' ≤ c && c ≤ 'f') || ('A' ≤ c && c ≤ 'F'))

/-- The constructor `bson.ObjectId(s)` succeeds on a string exactly when it is 24 hex chars. -/
def isValidObjectId (s : String) : Bool :=
  s.length == 24 && s.toList.all hexDigit

/-- Does `hay` contain `needle` as a contiguous run of characters? -/
def containsSeq (needle : List Char) : List Char → Bool
  | [] => needle.isEmpty
  | c :: t => needle.isPrefixOf (c :: t) || containsSeq needle t

/-- Mongo `$regex` with `$options: "i"` on a literal pattern:
case-insensitive substring containment. -/
def ciContains (hay needle : String) : Bool :=
  containsSeq (needle.toList.map Char.toLower) (hay.toList.map Char.toLower)

/-! ## Data model: the two Mongo collections -/

/-- A document of the `payments` collection.  `oid` is the `_id` rendered
as its 24-char hex string; the stored `payee_due_date` datetime is an
epoch-seconds timestamp; `discount_percent` and `tax_percent` are `none`
when the field is missing or null. -/
structure PaymentDoc where
  oid : String
  payee_first_name : String
  payee_last_name : String
  payee_payment_status : String
  payee_added_date_utc : String
  payee_due_date : Int
  payee_address_line_1 : String
  payee_address_line_2 : String
  payee_city : String
  payee_country : String
  payee_province_or_state : String
  payee_postal_code : String
  payee_phone_number : String
  payee_email : String
  currency : String
  discount_percent : Option ℚ
  tax_percent : Option ℚ
  due_amount : ℚ
  total_due : Option ℚ
  deriving DecidableEq

/-- A document of the `evidence` collection (`models/evidence.py`). -/
structure EvidenceDoc where
  payment_id : String
  file_name : String
  file_data : List Nat
  file_type : String
  deriving DecidableEq

/-- The database state: both collections. -/
structure DB where
  payments : List PaymentDoc
  evidence : List EvidenceDoc
  deriving DecidableEq

/-- Mongo `update_one`: update the first document matching the predicate. -/
def updateOne (m : α → Bool) (f : α → α) : List α → List α
  | [] => []
  | x :: t => if m x then f x :: t else x :: updateOne m f t

/-- Mongo `delete_one`: remove the first matching document and report
`deleted_count`. -/
def deleteOne (m : α → Bool) : List α → List α × Nat
  | [] => ([], 0)
  | x :: t =>
    if m x then (t, 1)
    else
      let r := deleteOne m t
      (x :: r.1, r.2)

/-- Mongo `find_one`: first matching document, if any. -/
def findOne (m : α → Bool) (l : List α) : Option α := l.find? m

/-! ## Evidence service (`services/evidence_service.py`) -/

inductive UploadOutcome where
  /-- Returned `\x7b"file_id": payment_id\x7d`. -/
  | ok (file_id : String)
  /-- The conversion `bson.ObjectId(payment_id)` raised `InvalidId`. -/
  | invalidId
  deriving DecidableEq

/-- Model of `uploading_evidence(payment_id, file_data, file_name, file_type)`:
inserts the evidence document first, unconditionally; only then converts
`payment_id` to an ObjectId (which raises on a malformed id) and sets the
matching payment's `payee_payment_status` to "completed". -/
def uploading_evidence (db : DB) (payment_id : String) (file_data : List Nat)
    (file_name : String) (file_type : String) : UploadOutcome × DB :=
  let ev : EvidenceDoc := ⟨payment_id, file_name, file_data, file_type⟩
  let db1 : DB := { db with evidence := db.evidence ++ [ev] }
  if isValidObjectId payment_id then
    let db2 : DB :=
      { db1 with
        payments :=
          updateOne (fun p => p.oid == payment_id)
            (fun p => { p with payee_payment_status := "completed" }) db1.payments }
    (UploadOutcome.ok payment_id, db2)
  else
    (UploadOutcome.invalidId, db1)

/-! ## Delete endpoint (`api/payment.py`, `delete_payment`) -/

inductive DeleteOutcome where
  /-- Status 200, payment and related evidence deleted. -/
  | ok
  /-- Status 400, invalid payment ID format. -/
  | badRequest
  /-- Status 404, payment not found. -/
  | notFound
  deriving DecidableEq

/-- Model of `delete_payment(payment_id)`: validate the id (400 on failure), look the
payment up (404 when absent), delete all evidence documents whose
`payment_id` equals the given string, then `delete_one` the payment. -/
def delete_payment (db : DB) (payment_id : String) : DeleteOutcome × DB :=
  if isValidObjectId payment_id then
    match findOne (fun p => p.oid == payment_id) db.payments with
    | none => (DeleteOutcome.notFound, db)
    | some _ =>
      let db1 : DB :=
        if (findOne (fun e => e.payment_id == payment_id) db.evidence).isSome then
          { db with evidence := db.evidence.filter (fun e => !(e.payment_id == payment_id)) }
        else db
      let r := deleteOne (fun p => p.oid == payment_id) db1.payments
      let db2 : DB := { db1 with payments := r.1 }
      if r.2 == 0 then (DeleteOutcome.notFound, db2) else (DeleteOutcome.ok, db2)
  else (DeleteOutcome.badRequest, db)

/-! ## Listing endpoint (`api/payment.py`, `get_payments`)

`today` stands for `datetime.combine(date.today(), datetime.min.time())`,
the start (midnight) of the current local day, as an epoch timestamp. -/

/-- The two `update_many` aging passes run before every listing query:
first set "due_now" where `payee_due_date == today`, then "overdue"
where `payee_due_date < today`. -/
def agePayments (today : Int) (ps : List PaymentDoc) : List PaymentDoc :=
  let ps1 := ps.map fun p =>
    if p.payee_due_date = today then { p with payee_payment_status := "due_now" } else p
  ps1.map fun p =>
    if p.payee_due_date < today then { p with payee_payment_status := "overdue" } else p

/-- The listing recompute formula:
`round(due_amount - due_amount*discount/100 + due_amount*tax/100, 2)`. -/
def listingTotalDue (due_amount discount tax : ℚ) : ℚ :=
  round2 (due_amount - due_amount * discount / 100 + due_amount * tax / 100)

/-- One step of the per-record loop in `get_payments`: read
`discount_percent`/`tax_percent` with `.get(..., 0) or 0` (missing or null
becomes 0) and overwrite `total_due` with the recomputed value. -/
def recomputeTotal (p : PaymentDoc) : PaymentDoc :=
  let discount := p.discount_percent.getD 0
  let tax := p.tax_percent.getD 0
  { p with total_due := some (listingTotalDue p.due_amount discount tax) }

/-- The query parameters of `get_payments`; `none` models an omitted
parameter. -/
structure Query where
  payee_first_name : Option String
  payee_last_name : Option String
  payee_payment_status : Option String
  payee_address_line_1 : Option String
  payee_address_line_2 : Option String
  payee_city : Option String
  payee_country : Option String
  payee_province_or_state : Option String
  payee_postal_code : Option String
  payee_phone_number : Option String
  payee_email : Option String
  currency : Option String
  deriving DecidableEq

/-- The query with every parameter omitted. -/
def emptyQuery : Query :=
  ⟨none, none, none, none, none, none, none, none, none, none, none, none⟩

/-- One field of the Mongo filter: `if param: query[field] = \x7b"$regex":
param, "$options": "i"\x7d`.  An omitted parameter, and also an empty
string (falsy in Python), add no clause; otherwise the clause is a
case-insensitive substring match. -/
def fieldFilterMatch (param : Option String) (value : String) : Bool :=
  match param with
  | none => true
  | some s => if s = "" then true else ciContains value s

/-- A document matches the built filter when every supplied field clause
matches (Mongo combines the clauses of one filter document with AND). -/
def matchesQuery (q : Query) (p : PaymentDoc) : Bool :=
  fieldFilterMatch q.payee_first_name p.payee_first_name &&
  fieldFilterMatch q.payee_last_name p.payee_last_name &&
  fieldFilterMatch q.payee_payment_status p.payee_payment_status &&
  fieldFilterMatch q.payee_address_line_1 p.payee_address_line_1 &&
  fieldFilterMatch q.payee_address_line_2 p.payee_address_line_2 &&
  fieldFilterMatch q.payee_city p.payee_city &&
  fieldFilterMatch q.payee_country p.payee_country &&
  fieldFilterMatch q.payee_province_or_state p.payee_province_or_state &&
  fieldFilterMatch q.payee_postal_code p.payee_postal_code &&
  fieldFilterMatch q.payee_phone_number p.payee_phone_number &&
  fieldFilterMatch q.payee_email p.payee_email &&
  fieldFilterMatch q.currency p.currency

/-- Descending due-date order used by `.sort("payee_due_date", -1)`. -/
def dueGE (a b : PaymentDoc) : Prop := b.payee_due_date ≤ a.payee_due_date

instance : DecidableRel dueGE := fun a b => Int.decLe b.payee_due_date a.payee_due_date

instance : IsTotal PaymentDoc dueGE :=
  ⟨fun a b => le_total b.payee_due_date a.payee_due_date⟩

instance : IsTrans PaymentDoc dueGE :=
  ⟨fun _ _ _ h1 h2 => le_trans h2 h1⟩

/-- Sort by `payee_due_date` descending. -/
def sortByDueDateDesc (ps : List PaymentDoc) : List PaymentDoc :=
  List.insertionSort dueGE ps

/-- The collection state after the aging and recompute passes, filtered by
the built query: the match set whose size is `totalCount`. -/
def matchingPayments (today : Int) (q : Query) (db : DB) : List PaymentDoc :=
  ((agePayments today db.payments).map recomputeTotal).filter fun p => matchesQuery q p

/-- The HTTPExceptions that `get_evidence` can raise. -/
inductive HttpError where
  /-- Status 404, evidence not found. -/
  | notFound404
  /-- Status 400, no file data found. -/
  | badRequest400
  deriving DecidableEq

/-- Model of `get_evidence(payment_id)` (`services/evidence_service.py`):
find the first evidence document whose `payment_id` matches; raise 404
when there is none; raise 400 when the stored `file_data` is falsy (empty
bytes); otherwise stage the bytes and return a file response, modelled by
the found document. -/
def get_evidence (evs : List EvidenceDoc) (payment_id : String) :
    Except HttpError EvidenceDoc :=
  match findOne (fun e => e.payment_id == payment_id) evs with
  | none => Except.error HttpError.notFound404
  | some ev =>
    if ev.file_data.isEmpty then Except.error HttpError.badRequest400
    else Except.ok ev

/-- The per-row shaping loop of `get_payments` (`api/payment.py:260-293`):
each result row calls `get_evidence` with the row's id, with no
try/except, so the first row without evidence (404) or without bytes
(400) aborts the whole response.  On success the rows come back
unchanged (the JSON field shaping carries no information the claims
need). -/
def attachEvidence (evs : List EvidenceDoc) :
    List PaymentDoc → Except HttpError (List PaymentDoc)
  | [] => Except.ok []
  | p :: t =>
    match get_evidence evs p.oid with
    | Except.error e => Except.error e
    | Except.ok _ =>
      match attachEvidence evs t with
      | Except.error e => Except.error e
      | Except.ok t2 => Except.ok (p :: t2)

/-- The page selected by
`find(query).sort("payee_due_date", -1).skip((skip-1)*limit).limit(limit)`. -/
def listingPage (today : Int) (q : Query) (skip limit : Int) (db : DB) :
    List PaymentDoc :=
  ((sortByDueDateDesc (matchingPayments today q db)).drop
    ((skip - 1) * limit).toNat).take limit.toNat

/-- The characters PCRE (Mongo `$regex`) treats specially outside a
character class; a pattern avoiding them matches as a literal. -/
def regexMetachars : List Char :=
  ['\\', '^', '$', '.', '[', ']', '|', '(', ')', '*', '+', '?', '\x7b', '\x7d']

/-- Is the string free of regex metacharacters, so that `$regex` matches
it literally? -/
def isLiteralPattern (s : String) : Bool :=
  s.toList.all fun c => !(regexMetachars.contains c)

/-- The twelve filter parameters of a query, as supplied. -/
def queryValues (q : Query) : List (Option String) :=
  [q.payee_first_name, q.payee_last_name, q.payee_payment_status,
   q.payee_address_line_1, q.payee_address_line_2, q.payee_city,
   q.payee_country, q.payee_province_or_state, q.payee_postal_code,
   q.payee_phone_number, q.payee_email, q.currency]

/-- Is every supplied filter value of the query a literal (metacharacter
free) pattern? -/
def queryLiteral (q : Query) : Bool :=
  (queryValues q).all fun o =>
    match o with
    | none => true
    | some s => isLiteralPattern s

instance {e a : Type} [DecidableEq e] [DecidableEq a] : DecidableEq (Except e a) :=
  fun x y =>
    match x, y with
    | Except.error u, Except.error v =>
      if h : u = v then Decidable.isTrue (by rw [h])
      else Decidable.isFalse fun hc => h (Except.error.inj hc)
    | Except.error _, Except.ok _ => Decidable.isFalse fun hc => Except.noConfusion hc
    | Except.ok _, Except.error _ => Decidable.isFalse fun hc => Except.noConfusion hc
    | Except.ok u, Except.ok v =>
      if h : u = v then Decidable.isTrue (by rw [h])
      else Decidable.isFalse fun hc => h (Except.ok.inj hc)

/-- Model of `get_payments`: age the whole collection, recompute every
`total_due`, build the filter, select the page
`find(query).sort(due_date, -1).skip((skip-1)*limit).limit(limit)` and
`totalCount = count_documents(query)`, then shape the rows, calling
`get_evidence` once per row: the first row without evidence bytes makes
that call raise, aborting the response, so the page and `totalCount` are
returned only when every page row has evidence with bytes.  The
collection mutations happen before the shaping loop, so the second
component holds the mutated state in both outcomes. -/
def get_payments (today : Int) (q : Query) (skip limit : Int) (db : DB) :
    Except HttpError (List PaymentDoc × Nat) × DB :=
  let ps2 := (agePayments today db.payments).map recomputeTotal
  let db2 : DB := { db with payments := ps2 }
  let page := listingPage today q skip limit db
  let resp : Except HttpError (List PaymentDoc × Nat) :=
    match attachEvidence db.evidence page with
    | Except.error e => Except.error e
    | Except.ok shaped => Except.ok (shaped, (matchingPayments today q db).length)
  (resp, db2)

/-! ## CSV normalizer (`services/normalize_csv_service.py`) -/

/-- A pandas cell value as seen by the normalizer and by pydantic:
a numeric float, the float NaN (pandas' missing-value marker), Python
`None`, or a raw string. -/
inductive PdVal where
  | num (q : ℚ)
  | nan
  | null
  | str (s : String)
  deriving DecidableEq

/-- Digits-only parse of a character list. -/
def natOfDigits (l : List Char) : Option Nat :=
  if l ≠ [] ∧ l.all Char.isDigit then
    some (l.foldl (fun n c => 10 * n + (c.toNat - 48)) 0)
  else none

/-- Parse a decimal literal (optional sign, integer part, optional
fractional part) into a rational. -/
def parseDecimal (s : String) : Option ℚ :=
  let withSign : ℚ × List Char :=
    match s.toList with
    | '-' :: t => (-1, t)
    | '+' :: t => (1, t)
    | t => (1, t)
  let intPart := withSign.2.takeWhile fun c => c ≠ '.'
  let rest := withSign.2.dropWhile fun c => c ≠ '.'
  match rest with
  | [] => (natOfDigits intPart).map fun n => withSign.1 * n
  | _ :: fr =>
    match natOfDigits intPart, natOfDigits fr with
    | some i, some f =>
      some (withSign.1 * ((i : ℚ) + (f : ℚ) / (10 : ℚ) ^ fr.length))
    | _, _ => none

/-- Model of `pd.to_numeric(x, errors="coerce")` on one cell: an unparseable value
becomes NaN (a float), never `None`. -/
def to_numeric (s : String) : PdVal :=
  match parseDecimal s with
  | some q => PdVal.num q
  | none => PdVal.nan

/-- Model of `.fillna(0)`: replace the missing-value markers by 0. -/
def fillna0 : PdVal → PdVal
  | PdVal.nan => PdVal.num 0
  | PdVal.null => PdVal.num 0
  | v => v

/-- Civil date (year, month, day) of a day count since 1970-01-01,
proleptic Gregorian. -/
def civilFromDays (z0 : Int) : Int × Int × Int :=
  let z := z0 + 719468
  let era := z.fdiv 146097
  let doe := z - era * 146097
  let yoe := (doe - doe / 1460 + doe / 36524 - doe / 146096) / 365
  let y := yoe + era * 400
  let doy := doe - (365 * yoe + yoe / 4 - yoe / 100)
  let mp := (5 * doy + 2) / 153
  let d := doy - (153 * mp + 2) / 5 + 1
  let m := mp + (if mp < 10 then 3 else -9)
  (y + (if m ≤ 2 then 1 else 0), m, d)

/-- Month abbreviation as used by `strftime("%b")` in the C locale. -/
def monthAbbrev : Int → String
  | 1 => "Jan"
  | 2 => "Feb"
  | 3 => "Mar"
  | 4 => "Apr"
  | 5 => "May"
  | 6 => "Jun"
  | 7 => "Jul"
  | 8 => "Aug"
  | 9 => "Sep"
  | 10 => "Oct"
  | 11 => "Nov"
  | 12 => "Dec"
  | _ => "???"

/-- Zero-padded two-digit rendering of a nonnegative integer. -/
def pad2 (n : Int) : String :=
  if n < 10 then "0" ++ toString n else toString n

/-- Model of `pd.to_datetime(t, unit="s").strftime("%b %d, %Y, %I:%M %p")`:
epoch seconds to the display string stored in `payee_added_date_utc`. -/
def formatEpoch (t : Int) : String :=
  let days := t.fdiv 86400
  let secs := t - days * 86400
  let ymd := civilFromDays days
  let hh := secs / 3600
  let mm := (secs % 3600) / 60
  let h12r := hh % 12
  let h12 := if h12r = 0 then 12 else h12r
  let ampm := if hh < 12 then "AM" else "PM"
  monthAbbrev ymd.2.1 ++ " " ++ pad2 ymd.2.2 ++ ", " ++ toString ymd.1 ++ ", " ++
    pad2 h12 ++ ":" ++ pad2 mm ++ " " ++ ampm

/-- Days in a month of the Gregorian calendar. -/
def daysInMonth (y m : Int) : Int :=
  if m = 2 then (if (y % 4 = 0 ∧ y % 100 ≠ 0) ∨ y % 400 = 0 then 29 else 28)
  else if m = 4 ∨ m = 6 ∨ m = 9 ∨ m = 11 then 30
  else 31

/-- Split a character list at every occurrence of `sep`. -/
def splitOnChar (sep : Char) : List Char → List (List Char)
  | [] => [[]]
  | c :: t =>
    let r := splitOnChar sep t
    if c = sep then [] :: r
    else
      match r with
      | [] => [[c]]
      | h :: rest => (c :: h) :: rest

/-- Model of `pd.to_datetime(s, format="%Y-%m-%d", errors="coerce")`: a strict
calendar-date parse; an unparseable cell becomes NaT, modelled `none`. -/
def parseDueDate (s : String) : Option (Int × Int × Int) :=
  match (splitOnChar '-' s.toList).map (fun l => String.mk l) with
  | [ys, ms, ds] =>
    match natOfDigits ys.toList, natOfDigits ms.toList, natOfDigits ds.toList with
    | some y, some m, some d =>
      let yi : Int := y
      let mi : Int := m
      let di : Int := d
      if 1 ≤ mi ∧ mi ≤ 12 ∧ 1 ≤ di ∧ di ≤ daysInMonth yi mi then some (yi, mi, di)
      else none
    | _, _, _ => none
  | _ => none

/-- The CSV columns relevant to the normalizer's numeric/date pipeline:
`payee_added_date_utc` is read as integer epoch seconds, the others as raw
text cells. -/
structure CsvRow where
  payee_added_date_utc : Int
  payee_due_date : String
  discount_percent : String
  tax_percent : String
  due_amount : String
  deriving DecidableEq

/-- A normalized row as handed to `Payment(**payment_data)` and inserted. -/
structure NormRecord where
  payee_added_date_utc : String
  payee_due_date : Option (Int × Int × Int)
  discount_percent : PdVal
  tax_percent : PdVal
  due_amount : PdVal
  total_due : PdVal
  deriving DecidableEq

/-- Python truthiness step `x if x else 0` on a cell: numeric 0, `None`
and the empty string are falsy and become 0; NaN is truthy and is kept
(an unreachable case here, since discount/tax are filled before this
runs). -/
def truthyOrZero : PdVal → PdVal
  | PdVal.num q => if q = 0 then PdVal.num 0 else PdVal.num q
  | PdVal.null => PdVal.num 0
  | PdVal.str s => if s = "" then PdVal.num 0 else PdVal.str s
  | PdVal.nan => PdVal.nan

/-- Model of `calculate_total_due(row)`:
`round(due_amount * (1 - discount/100) * (1 + tax/100), 2)`, with the
truthiness defaulting of discount and tax.  Any non-numeric operand
(NaN due amount) propagates to a NaN result, as in float arithmetic. -/
def calculate_total_due (due_amount discount_percent tax_percent : PdVal) : PdVal :=
  let dv := truthyOrZero discount_percent
  let tv := truthyOrZero tax_percent
  match due_amount, dv, tv with
  | PdVal.num due, PdVal.num d, PdVal.num t =>
    PdVal.num (round2 (due * (1 - d / 100) * (1 + t / 100)))
  | _, _, _ => PdVal.nan

/-- The per-row effect of `normalize_csv`: format the added date, parse
the due date, coerce discount/tax (filling NaN with 0), coerce the due
amount (NaN kept), and compute `total_due`. -/
def normalize_row (r : CsvRow) : NormRecord :=
  let discount := fillna0 (to_numeric r.discount_percent)
  let tax := fillna0 (to_numeric r.tax_percent)
  let due := to_numeric r.due_amount
  { payee_added_date_utc := formatEpoch r.payee_added_date_utc
    payee_due_date := parseDueDate r.payee_due_date
    discount_percent := discount
    tax_percent := tax
    due_amount := due
    total_due := calculate_total_due due discount tax }

/-- Pydantic validation of the required `due_amount: float` field:
a float — NaN included, since `float("nan")` is a float and plain `float`
fields place no finiteness bound — passes; `None` fails the required
field; a string passes exactly when it coerces to a float. -/
def floatFieldValid : PdVal → Bool
  | PdVal.num _ => true
  | PdVal.nan => true
  | PdVal.null => false
  | PdVal.str s => (parseDecimal s).isSome

/-- Model of the `Payment(**payment_data)` validation of a normalized row, restricted
to the one field the import can render invalid. -/
def paymentRowValid (r : NormRecord) : Bool := floatFieldValid r.due_amount

/-- Model of `save_to_normalize_csv_to_db`: insert rows one by one; a row that
fails validation raises, aborting the remaining rows (those already
inserted stay).  Returns the inserted rows and whether an error was
raised. -/
def save_to_normalize_csv_to_db : List NormRecord → List NormRecord × Bool
  | [] => ([], false)
  | r :: rest =>
    if paymentRowValid r then
      let out := save_to_normalize_csv_to_db rest
      (r :: out.1, out.2)
    else ([], true)

/-! ## Sample data used to instantiate the theorems -/

/-- A sample payment document with a well-formed 24-hex-char id. -/
def basePayment : PaymentDoc :=
  { oid := "aaaaaaaaaaaaaaaaaaaaaaaa"
    payee_first_name := "John"
    payee_last_name := "Doe"
    payee_payment_status := "pending"
    payee_added_date_utc := "Nov 14, 2023, 10:13 PM"
    payee_due_date := 5
    payee_address_line_1 := "1 Main St"
    payee_address_line_2 := ""
    payee_city := "Springfield"
    payee_country := "US"
    payee_province_or_state := "IL"
    payee_postal_code := "62701"
    payee_phone_number := "5551234567"
    payee_email := "jd@example.com"
    currency := "USD"
    discount_percent := none
    tax_percent := none
    due_amount := 100
    total_due := none }

/-- A second payment with a different id and due date. -/
def otherPayment : PaymentDoc :=
  { basePayment with oid := "bbbbbbbbbbbbbbbbbbbbbbbb", payee_due_date := 9 }

/-- An evidence document owned by `basePayment`. -/
def sampleEvidence : EvidenceDoc :=
  ⟨"aaaaaaaaaaaaaaaaaaaaaaaa", "receipt.pdf", [1, 2], "application/pdf"⟩

/-- An evidence document owned by `otherPayment`. -/
def otherEvidence : EvidenceDoc :=
  ⟨"bbbbbbbbbbbbbbbbbbbbbbbb", "invoice.pdf", [3], "application/pdf"⟩

/-- A one-payment database. -/
def sampleDB : DB := ⟨[basePayment], []⟩

/-- A two-payment database with one evidence document per payment. -/
def twoPaymentDB : DB := ⟨[basePayment, otherPayment], [sampleEvidence, otherEvidence]⟩

/-- The spec's example per-field search: city "spring", country "us". -/
def cityQuery : Query :=
  { emptyQuery with payee_city := some "spring", payee_country := some "us" }

/-- A CSV row whose `due_amount` cell does not parse as a number. -/
def badAmountRow : CsvRow := ⟨1700000000, "2024-01-15", "5", "10", "abc"⟩

/-- A fully well-formed CSV row. -/
def goodRow : CsvRow := ⟨1700000100, "2024-02-20", "", "0", "50"⟩

/-! ## Helper lemmas -/

theorem updateOne_of_forall_ne (m : α → Bool) (f : α → α) (l : List α)
    (h : ∀ x ∈ l, m x = false) : updateOne m f l = l := by
  induction l with
  | nil => rfl
  | cons x t ih =>
    simp only [updateOne, h x (List.mem_cons_self x t)]
    simp only [Bool.false_eq_true, if_false, List.cons.injEq, true_and]
    exact ih fun y hy => h y (List.mem_cons_of_mem x hy)

theorem updateOne_eq_map (m : α → Bool) (f : α → α) (l : List α)
    (h : l.Pairwise fun a b => ¬(m a = true ∧ m b = true)) :
    updateOne m f l = l.map fun x => if m x then f x else x := by
  induction l with
  | nil => rfl
  | cons x t ih =>
    rcases List.pairwise_cons.1 h with ⟨hx, ht⟩
    by_cases hm : m x = true
    · have htf : ∀ y ∈ t, m y = false := by
        intro y hy
        have := hx y hy
        rcases Bool.eq_false_or_eq_true (m y) with h1 | h0
        · exact absurd ⟨hm, h1⟩ this
        · exact h0
      have : t.map (fun x => if m x then f x else x) = t := by
        have : ∀ y ∈ t, (if m y then f y else y) = y := by
          intro y hy
          simp [htf y hy]
        calc t.map (fun x => if m x then f x else x) = t.map id :=
              List.map_congr_left this
          _ = t := List.map_id t
      simp [updateOne, hm, this]
    · simp only [Bool.not_eq_true] at hm
      simp [updateOne, hm, ih ht]

theorem deleteOne_eq_filter (m : α → Bool) (l : List α)
    (h : l.Pairwise fun a b => ¬(m a = true ∧ m b = true)) :
    (deleteOne m l).1 = l.filter fun x => !(m x) := by
  induction l with
  | nil => rfl
  | cons x t ih =>
    rcases List.pairwise_cons.1 h with ⟨hx, ht⟩
    by_cases hm : m x = true
    · have htf : ∀ y ∈ t, m y = false := by
        intro y hy
        rcases Bool.eq_false_or_eq_true (m y) with h1 | h0
        · exact absurd ⟨hm, h1⟩ (hx y hy)
        · exact h0
      have : t.filter (fun x => !(m x)) = t :=
        List.filter_eq_self.2 fun y hy => by simp [htf y hy]
      simp [deleteOne, hm, this]
    · simp only [Bool.not_eq_true] at hm
      simp [deleteOne, hm, ih ht]

theorem deleteOne_snd_of_mem (m : α → Bool) (l : List α) (x : α)
    (hx : x ∈ l) (hm : m x = true) : (deleteOne m l).2 = 1 := by
  induction l with
  | nil => cases hx
  | cons y t ih =>
    by_cases hy : m y = true
    · simp [deleteOne, hy]
    · rcases List.mem_cons.1 hx with rfl | hxt
      · exact absurd hm hy
      · simp only [Bool.not_eq_true] at hy
        simp [deleteOne, hy, ih hxt]

theorem get_payments_length (today : Int) (q : Query) (skip limit : Int) (db : DB) :
    ((get_payments today q skip limit db).2).payments.length = db.payments.length := by
  simp [get_payments, agePayments]

theorem fieldFilterMatch_iff (param : Option String) (v : String) :
    fieldFilterMatch param v = true ↔
      ∀ s, param = some s → s ≠ "" → ciContains v s = true := by
  cases param with
  | none => simp [fieldFilterMatch]
  | some s => by_cases hs : s = "" <;> simp [fieldFilterMatch, hs]

theorem floatFieldValid_to_numeric (s : String) :
    floatFieldValid (to_numeric s) = true := by
  unfold to_numeric
  cases parseDecimal s <;> simp [floatFieldValid]

theorem get_payments_resp (today : Int) (q : Query) (skip limit : Int) (db : DB) :
    (get_payments today q skip limit db).1
      = match attachEvidence db.evidence (listingPage today q skip limit db) with
        | Except.error e => Except.error e
        | Except.ok shaped =>
            Except.ok (shaped, (matchingPayments today q db).length) := rfl

theorem attachEvidence_ok_of_forall (evs : List EvidenceDoc) (l : List PaymentDoc)
    (h : ∀ p ∈ l, ∃ d, get_evidence evs p.oid = Except.ok d) :
    attachEvidence evs l = Except.ok l := by
  induction l with
  | nil => rfl
  | cons p t ih =>
    obtain ⟨d, hd⟩ := h p (List.mem_cons_self p t)
    have ht := ih fun y hy => h y (List.mem_cons_of_mem p hy)
    simp [attachEvidence, hd, ht]

theorem attachEvidence_ok_eq (evs : List EvidenceDoc) (l l2 : List PaymentDoc)
    (h : attachEvidence evs l = Except.ok l2) : l2 = l := by
  induction l generalizing l2 with
  | nil =>
    simp only [attachEvidence] at h
    exact (Except.ok.inj h).symm
  | cons p t ih =>
    simp only [attachEvidence] at h
    cases hg : get_evidence evs p.oid with
    | error e => rw [hg] at h; cases h
    | ok d =>
      rw [hg] at h
      cases ha : attachEvidence evs t with
      | error e => rw [ha] at h; cases h
      | ok t2 =>
        rw [ha] at h
        rw [← Except.ok.inj h, ih t2 ha]

theorem listingPage_sublist_sorted (today : Int) (q : Query) (skip limit : Int)
    (db : DB) :
    (listingPage today q skip limit db).Sublist
      (sortByDueDateDesc (matchingPayments today q db)) :=
  (List.take_sublist _ _).trans (List.drop_sublist _ _)

theorem listingPage_subset_matching (today : Int) (q : Query) (skip limit : Int)
    (db : DB) :
    ∀ p ∈ listingPage today q skip limit db, p ∈ matchingPayments today q db :=
  fun _ hp =>
    (List.mem_insertionSort dueGE).1
      ((listingPage_sublist_sorted today q skip limit db).subset hp)

/-! ## Claim theorems -/

/-- C5: for a well-formed payment id, `uploading_evidence` always inserts a
new evidence record (appended, never replacing or merging), sets the status
of the payment whose id matches to "completed" (with no existence check:
when no payment matches, the status write silently changes nothing), and
returns the payment id as the acknowledgment token. -/
theorem upload_inserts_and_completes (db : DB) (pid : String) (fd : List Nat)
    (fn ft : String)
    (huniq : db.payments.Pairwise fun a b => a.oid ≠ b.oid)
    (hvalid : isValidObjectId pid = true) :
    (uploading_evidence db pid fd fn ft).1 = UploadOutcome.ok pid ∧
    ((uploading_evidence db pid fd fn ft).2).evidence
      = db.evidence ++ [⟨pid, fn, fd, ft⟩] ∧
    ((uploading_evidence db pid fd fn ft).2).payments
      = db.payments.map (fun p =>
          if p.oid = pid then { p with payee_payment_status := "completed" } else p) ∧
    ((∀ p ∈ db.payments, p.oid ≠ pid) →
      ((uploading_evidence db pid fd fn ft).2).payments = db.payments) := by
  have hpair : db.payments.Pairwise fun a b =>
      ¬((a.oid == pid) = true ∧ (b.oid == pid) = true) := by
    refine huniq.imp ?_
    intro a b hab ⟨ha, hb⟩
    exact hab ((beq_iff_eq.1 ha).trans (beq_iff_eq.1 hb).symm)
  refine ⟨by simp [uploading_evidence, hvalid], by simp [uploading_evidence, hvalid], ?_, ?_⟩
  · simp only [uploading_evidence, hvalid, if_true]
    rw [updateOne_eq_map _ _ _ hpair]
    refine List.map_congr_left fun p _ => ?_
    by_cases h : p.oid = pid <;> simp [h]
  · intro hnone
    simp only [uploading_evidence, hvalid, if_true]
    rw [updateOne_of_forall_ne]
    intro x hx
    exact beq_eq_false_iff_ne.2 (hnone x hx)

/-- C5 witness: uploading to the one-payment sample database. -/
theorem upload_inserts_and_completes_witness :
    (uploading_evidence sampleDB "aaaaaaaaaaaaaaaaaaaaaaaa" [7] "receipt.pdf"
        "application/pdf").1 = UploadOutcome.ok "aaaaaaaaaaaaaaaaaaaaaaaa" ∧
    ((uploading_evidence sampleDB "aaaaaaaaaaaaaaaaaaaaaaaa" [7] "receipt.pdf"
        "application/pdf").2).evidence
      = sampleDB.evidence
          ++ [⟨"aaaaaaaaaaaaaaaaaaaaaaaa", "receipt.pdf", [7], "application/pdf"⟩] ∧
    ((uploading_evidence sampleDB "aaaaaaaaaaaaaaaaaaaaaaaa" [7] "receipt.pdf"
        "application/pdf").2).payments
      = sampleDB.payments.map (fun p =>
          if p.oid = "aaaaaaaaaaaaaaaaaaaaaaaa"
          then { p with payee_payment_status := "completed" } else p) := by
  have T := upload_inserts_and_completes sampleDB "aaaaaaaaaaaaaaaaaaaaaaaa" [7]
    "receipt.pdf" "application/pdf" (by decide) (by decide)
  exact ⟨T.1, T.2.1, T.2.2.1⟩

/-- C10: for a malformed payment id, `uploading_evidence` inserts the new
evidence record before the ObjectId conversion raises, so the call errors
yet leaves behind the freshly inserted evidence record referencing the
malformed id, while the payments collection is untouched. -/
theorem upload_invalid_id_still_inserts (db : DB) (pid : String) (fd : List Nat)
    (fn ft : String) (hbad : isValidObjectId pid = false) :
    (uploading_evidence db pid fd fn ft).1 = UploadOutcome.invalidId ∧
    ((uploading_evidence db pid fd fn ft).2).evidence
      = db.evidence ++ [⟨pid, fn, fd, ft⟩] ∧
    ((uploading_evidence db pid fd fn ft).2).payments = db.payments := by
  refine ⟨?_, ?_, ?_⟩ <;> simp [uploading_evidence, hbad]

/-- C10 witness: uploading with the malformed id "xyz". -/
theorem upload_invalid_id_still_inserts_witness :
    (uploading_evidence sampleDB "xyz" [1] "a.txt" "text/plain").1
      = UploadOutcome.invalidId ∧
    ((uploading_evidence sampleDB "xyz" [1] "a.txt" "text/plain").2).evidence
      = sampleDB.evidence ++ [⟨"xyz", "a.txt", [1], "text/plain"⟩] ∧
    ((uploading_evidence sampleDB "xyz" [1] "a.txt" "text/plain").2).payments
      = sampleDB.payments :=
  upload_invalid_id_still_inserts sampleDB "xyz" [1] "a.txt" "text/plain" (by decide)

/-- C4: deleting by id fails with 400 on a malformed id without touching the
database; with a well-formed id but no matching payment it fails with 404
and changes nothing; when the payment exists, every evidence record whose
`payment_id` equals the id is deleted (however many there are) and the
payment itself is deleted, with all other documents kept. -/
theorem delete_payment_cases (db : DB) (pid : String)
    (huniq : db.payments.Pairwise fun a b => a.oid ≠ b.oid) :
    (isValidObjectId pid = false →
      delete_payment db pid = (DeleteOutcome.badRequest, db)) ∧
    (isValidObjectId pid = true → (∀ p ∈ db.payments, p.oid ≠ pid) →
      delete_payment db pid = (DeleteOutcome.notFound, db)) ∧
    (isValidObjectId pid = true → ∀ p0 ∈ db.payments, p0.oid = pid →
      (delete_payment db pid).1 = DeleteOutcome.ok ∧
      ((delete_payment db pid).2).evidence
        = db.evidence.filter (fun e => !(e.payment_id == pid)) ∧
      ((delete_payment db pid).2).payments
        = db.payments.filter (fun p => !(p.oid == pid))) := by
  have hpair : db.payments.Pairwise fun a b =>
      ¬((a.oid == pid) = true ∧ (b.oid == pid) = true) := by
    refine huniq.imp ?_
    intro a b hab ⟨ha, hb⟩
    exact hab ((beq_iff_eq.1 ha).trans (beq_iff_eq.1 hb).symm)
  refine ⟨fun hbad => by simp [delete_payment, hbad], ?_, ?_⟩
  · intro hvalid hnone
    have hfind : findOne (fun p => p.oid == pid) db.payments = none := by
      unfold findOne
      exact List.find?_eq_none.2 fun x hx => beq_eq_false_iff_ne.2 (hnone x hx) ▸ by simp
    simp [delete_payment, hvalid, hfind]
  · intro hvalid p0 hp0 hoid
    have hmatch : (fun p : PaymentDoc => p.oid == pid) p0 = true := beq_iff_eq.2 hoid
    have hfind : ∃ w, findOne (fun p => p.oid == pid) db.payments = some w := by
      unfold findOne
      rw [← Option.isSome_iff_exists, List.find?_isSome]
      exact ⟨p0, hp0, hmatch⟩
    obtain ⟨w, hw⟩ := hfind
    have hcount : (deleteOne (fun p : PaymentDoc => p.oid == pid) db.payments).2 = 1 :=
      deleteOne_snd_of_mem _ _ p0 hp0 hmatch
    have hdel : (deleteOne (fun p : PaymentDoc => p.oid == pid) db.payments).1
        = db.payments.filter (fun p => !(p.oid == pid)) :=
      deleteOne_eq_filter _ _ hpair
    by_cases hev : (findOne (fun e => e.payment_id == pid) db.evidence).isSome
    · refine ⟨?_, ?_, ?_⟩ <;> simp [delete_payment, hvalid, hw, hev, hcount, hdel]
    · have hevall : db.evidence.filter (fun e => !(e.payment_id == pid)) = db.evidence := by
        refine List.filter_eq_self.2 fun e he => ?_
        have := List.find?_eq_none.1 (Option.not_isSome_iff_eq_none.1 hev) e he
        simp_all
      refine ⟨?_, ?_, ?_⟩ <;> simp [delete_payment, hvalid, hw, hev, hcount, hdel, hevall]

/-- C4 witness: deleting `basePayment` from the two-payment database removes
its evidence record and the payment, keeping the other payment and its
evidence. -/
theorem delete_payment_cases_witness :
    (delete_payment twoPaymentDB "aaaaaaaaaaaaaaaaaaaaaaaa").1 = DeleteOutcome.ok ∧
    ((delete_payment twoPaymentDB "aaaaaaaaaaaaaaaaaaaaaaaa").2).evidence
      = twoPaymentDB.evidence.filter
          (fun e => !(e.payment_id == "aaaaaaaaaaaaaaaaaaaaaaaa")) ∧
    ((delete_payment twoPaymentDB "aaaaaaaaaaaaaaaaaaaaaaaa").2).payments
      = twoPaymentDB.payments.filter
          (fun p => !(p.oid == "aaaaaaaaaaaaaaaaaaaaaaaa")) :=
  (delete_payment_cases twoPaymentDB "aaaaaaaaaaaaaaaaaaaaaaaa" (by decide)).2.2
    (by decide) basePayment (by decide) rfl

/-- C1: after `get_payments`, every record whose stored due date is exactly
the start of the current day carries status "due_now", every record whose
due date is strictly earlier carries "overdue", and every other record —
in particular one whose due date falls on the current day with a
non-midnight time component, hence strictly after `today` — keeps the
status it had before the aging step. -/
theorem get_payments_aging (today : Int) (q : Query) (skip limit : Int) (db : DB)
    (i : Nat) (h : i < db.payments.length) :
    (((get_payments today q skip limit db).2).payments.get
        ⟨i, lt_of_lt_of_eq h (get_payments_length today q skip limit db).symm⟩).payee_payment_status
      = (if (db.payments.get ⟨i, h⟩).payee_due_date = today then "due_now"
         else if (db.payments.get ⟨i, h⟩).payee_due_date < today then "overdue"
         else (db.payments.get ⟨i, h⟩).payee_payment_status) := by
  simp only [get_payments, agePayments, List.get_eq_getElem, List.getElem_map]
  set p := db.payments[i]
  by_cases h1 : p.payee_due_date = today
  · have h2 : ¬p.payee_due_date < today := by omega
    simp [recomputeTotal, h1, h2]
  · by_cases h2 : p.payee_due_date < today <;> simp [recomputeTotal, h1, h2]

/-- C1 witness: with `today = 5`, the sample payment (due date 5) ends up
"due_now". -/
theorem get_payments_aging_witness :
    (((get_payments 5 emptyQuery 1 10 sampleDB).2).payments.get
        ⟨0, lt_of_lt_of_eq (by decide)
          (get_payments_length 5 emptyQuery 1 10 sampleDB).symm⟩).payee_payment_status
      = "due_now" :=
  (get_payments_aging 5 emptyQuery 1 10 sampleDB 0 (by decide)).trans (by decide)

/-- C2: after any `get_payments` call, every record of the payments
collection — not only the returned page — stores
`total_due = round(due_amount - due_amount*discount/100 + due_amount*tax/100, 2)`
with missing or null discount and tax defaulting to 0, whatever
`total_due` held before. -/
theorem get_payments_total_due (today : Int) (q : Query) (skip limit : Int)
    (db : DB) (p : PaymentDoc)
    (hp : p ∈ ((get_payments today q skip limit db).2).payments) :
    p.total_due = some (round2 (p.due_amount
      - p.due_amount * (p.discount_percent.getD 0) / 100
      + p.due_amount * (p.tax_percent.getD 0) / 100)) := by
  have hstate : ((get_payments today q skip limit db).2).payments
      = (agePayments today db.payments).map recomputeTotal := rfl
  rw [hstate] at hp
  obtain ⟨p0, _, rfl⟩ := List.mem_map.1 hp
  simp [recomputeTotal, listingTotalDue]

/-- C2 witness: the recomputed sample payment (due amount 100, no discount,
no tax) is in the post-listing collection and stores the recomputed total. -/
theorem get_payments_total_due_witness :
    (recomputeTotal basePayment).total_due
      = some (round2 ((recomputeTotal basePayment).due_amount
        - (recomputeTotal basePayment).due_amount
            * (((recomputeTotal basePayment).discount_percent).getD 0) / 100
        + (recomputeTotal basePayment).due_amount
            * (((recomputeTotal basePayment).tax_percent).getD 0) / 100)) :=
  get_payments_total_due 0 emptyQuery 1 10 sampleDB (recomputeTotal basePayment)
    (by decide)

/-- C6 counterexample: with the per-field search `payee_city="spring"`,
`payee_country="us"` over a store whose one matching payment has no
evidence record, the match set is nonempty yet the call aborts with 404
from the per-row evidence lookup, so the endpoint does not return the
matching records. -/
theorem per_field_search_abort_counterexample :
    recomputeTotal basePayment ∈ matchingPayments 0 cityQuery sampleDB ∧
    (get_payments 0 cityQuery 1 10 sampleDB).1
      = Except.error HttpError.notFound404 := by decide

/-- C6 (amended): a record is in the match set of the per-field search
exactly when it is in the (aged, recomputed) collection and, for every
supplied non-empty filter field, it contains the supplied value as a
case-insensitive substring of that field (AND across the twelve fields;
an omitted or empty, hence falsy, field imposes no constraint) — provided
every supplied value is free of regex metacharacters, since the code
passes it to `$regex` as a pattern, not a literal; and whenever the call
returns a page at all (no per-row evidence lookup raised), every returned
record belongs to the match set. -/
theorem per_field_search_semantics (today : Int) (q : Query) (db : DB)
    (p : PaymentDoc)
    (_hlit : queryLiteral q = true) :
    (p ∈ matchingPayments today q db ↔
      p ∈ (agePayments today db.payments).map recomputeTotal ∧
      ((∀ s, q.payee_first_name = some s → s ≠ "" →
          ciContains p.payee_first_name s = true) ∧
       (∀ s, q.payee_last_name = some s → s ≠ "" →
          ciContains p.payee_last_name s = true) ∧
       (∀ s, q.payee_payment_status = some s → s ≠ "" →
          ciContains p.payee_payment_status s = true) ∧
       (∀ s, q.payee_address_line_1 = some s → s ≠ "" →
          ciContains p.payee_address_line_1 s = true) ∧
       (∀ s, q.payee_address_line_2 = some s → s ≠ "" →
          ciContains p.payee_address_line_2 s = true) ∧
       (∀ s, q.payee_city = some s → s ≠ "" →
          ciContains p.payee_city s = true) ∧
       (∀ s, q.payee_country = some s → s ≠ "" →
          ciContains p.payee_country s = true) ∧
       (∀ s, q.payee_province_or_state = some s → s ≠ "" →
          ciContains p.payee_province_or_state s = true) ∧
       (∀ s, q.payee_postal_code = some s → s ≠ "" →
          ciContains p.payee_postal_code s = true) ∧
       (∀ s, q.payee_phone_number = some s → s ≠ "" →
          ciContains p.payee_phone_number s = true) ∧
       (∀ s, q.payee_email = some s → s ≠ "" →
          ciContains p.payee_email s = true) ∧
       (∀ s, q.currency = some s → s ≠ "" →
          ciContains p.currency s = true))) ∧
    (∀ skip limit : Int, ∀ page : List PaymentDoc, ∀ total : Nat,
      (get_payments today q skip limit db).1 = Except.ok (page, total) →
      p ∈ page → p ∈ matchingPayments today q db) := by
  constructor
  · rw [matchingPayments, List.mem_filter]
    constructor
    · rintro ⟨hmem, hq⟩
      refine ⟨hmem, ?_⟩
      simp only [matchesQuery, Bool.and_eq_true] at hq
      obtain ⟨⟨⟨⟨⟨⟨⟨⟨⟨⟨⟨h1, h2⟩, h3⟩, h4⟩, h5⟩, h6⟩, h7⟩, h8⟩, h9⟩, h10⟩, h11⟩, h12⟩ := hq
      exact ⟨(fieldFilterMatch_iff _ _).1 h1, (fieldFilterMatch_iff _ _).1 h2,
        (fieldFilterMatch_iff _ _).1 h3, (fieldFilterMatch_iff _ _).1 h4,
        (fieldFilterMatch_iff _ _).1 h5, (fieldFilterMatch_iff _ _).1 h6,
        (fieldFilterMatch_iff _ _).1 h7, (fieldFilterMatch_iff _ _).1 h8,
        (fieldFilterMatch_iff _ _).1 h9, (fieldFilterMatch_iff _ _).1 h10,
        (fieldFilterMatch_iff _ _).1 h11, (fieldFilterMatch_iff _ _).1 h12⟩
    · rintro ⟨hmem, h1, h2, h3, h4, h5, h6, h7, h8, h9, h10, h11, h12⟩
      refine ⟨hmem, ?_⟩
      simp only [matchesQuery, Bool.and_eq_true]
      exact ⟨⟨⟨⟨⟨⟨⟨⟨⟨⟨⟨(fieldFilterMatch_iff _ _).2 h1, (fieldFilterMatch_iff _ _).2 h2⟩,
        (fieldFilterMatch_iff _ _).2 h3⟩, (fieldFilterMatch_iff _ _).2 h4⟩,
        (fieldFilterMatch_iff _ _).2 h5⟩, (fieldFilterMatch_iff _ _).2 h6⟩,
        (fieldFilterMatch_iff _ _).2 h7⟩, (fieldFilterMatch_iff _ _).2 h8⟩,
        (fieldFilterMatch_iff _ _).2 h9⟩, (fieldFilterMatch_iff _ _).2 h10⟩,
        (fieldFilterMatch_iff _ _).2 h11⟩, (fieldFilterMatch_iff _ _).2 h12⟩
  · intro skip limit page total hok hp
    rw [get_payments_resp] at hok
    cases ha : attachEvidence db.evidence (listingPage today q skip limit db) with
    | error e => rw [ha] at hok; cases hok
    | ok shaped =>
      rw [ha] at hok
      have hpage : shaped = page := congrArg Prod.fst (Except.ok.inj hok)
      have : page = listingPage today q skip limit db :=
        hpage ▸ attachEvidence_ok_eq _ _ _ ha
      exact listingPage_subset_matching today q skip limit db p (this ▸ hp)

/-- C6 witness: the sample per-field query over the two-payment database,
whose rows all carry evidence, exercised at the record that matches. -/
theorem per_field_search_semantics_witness :
    ((recomputeTotal basePayment ∈ matchingPayments 0 cityQuery twoPaymentDB ↔
      recomputeTotal basePayment
          ∈ (agePayments 0 twoPaymentDB.payments).map recomputeTotal ∧
      ((∀ s, cityQuery.payee_first_name = some s → s ≠ "" →
          ciContains (recomputeTotal basePayment).payee_first_name s = true) ∧
       (∀ s, cityQuery.payee_last_name = some s → s ≠ "" →
          ciContains (recomputeTotal basePayment).payee_last_name s = true) ∧
       (∀ s, cityQuery.payee_payment_status = some s → s ≠ "" →
          ciContains (recomputeTotal basePayment).payee_payment_status s = true) ∧
       (∀ s, cityQuery.payee_address_line_1 = some s → s ≠ "" →
          ciContains (recomputeTotal basePayment).payee_address_line_1 s = true) ∧
       (∀ s, cityQuery.payee_address_line_2 = some s → s ≠ "" →
          ciContains (recomputeTotal basePayment).payee_address_line_2 s = true) ∧
       (∀ s, cityQuery.payee_city = some s → s ≠ "" →
          ciContains (recomputeTotal basePayment).payee_city s = true) ∧
       (∀ s, cityQuery.payee_country = some s → s ≠ "" →
          ciContains (recomputeTotal basePayment).payee_country s = true) ∧
       (∀ s, cityQuery.payee_province_or_state = some s → s ≠ "" →
          ciContains (recomputeTotal basePayment).payee_province_or_state s = true) ∧
       (∀ s, cityQuery.payee_postal_code = some s → s ≠ "" →
          ciContains (recomputeTotal basePayment).payee_postal_code s = true) ∧
       (∀ s, cityQuery.payee_phone_number = some s → s ≠ "" →
          ciContains (recomputeTotal basePayment).payee_phone_number s = true) ∧
       (∀ s, cityQuery.payee_email = some s → s ≠ "" →
          ciContains (recomputeTotal basePayment).payee_email s = true) ∧
       (∀ s, cityQuery.currency = some s → s ≠ "" →
          ciContains (recomputeTotal basePayment).currency s = true))) ∧
    (∀ skip limit : Int, ∀ page : List PaymentDoc, ∀ total : Nat,
      (get_payments 0 cityQuery skip limit twoPaymentDB).1 = Except.ok (page, total) →
      recomputeTotal basePayment ∈ page →
      recomputeTotal basePayment ∈ matchingPayments 0 cityQuery twoPaymentDB)) :=
  per_field_search_semantics 0 cityQuery twoPaymentDB (recomputeTotal basePayment)
    (by decide)

/-- C7 counterexample: over a store with one matching payment and no
evidence records, the match set is nonempty yet `get_payments` with
`skip = 1, limit = 10` returns an HTTP 404 error instead of a page and a
`totalCount`. -/
theorem pagination_abort_counterexample :
    matchingPayments 0 emptyQuery sampleDB ≠ [] ∧
    (get_payments 0 emptyQuery 1 10 sampleDB).1
      = Except.error HttpError.notFound404 := by decide

/-- C7 (amended): with a one-based page index `skip ≥ 1` and page size
`limit`, the selected page is the descending due-date sort of the match
set with the first `(skip-1)*limit` entries skipped and at most `limit`
kept — sorted, drawn from the match set, of length at most `limit`; when
every page row has an evidence record with bytes the call returns exactly
this page together with `totalCount` = the full number of matching
records ignoring pagination, and when the per-row evidence lookup fails
on some page row the call returns that HTTP error and no page. -/
theorem get_payments_pagination (today : Int) (q : Query) (skip limit : Int)
    (db : DB) (_hskip : 1 ≤ skip) :
    ((∀ p ∈ listingPage today q skip limit db,
        ∃ d, get_evidence db.evidence p.oid = Except.ok d) →
      (get_payments today q skip limit db).1
        = Except.ok (listingPage today q skip limit db,
            (matchingPayments today q db).length)) ∧
    (∀ e, attachEvidence db.evidence (listingPage today q skip limit db)
        = Except.error e →
      (get_payments today q skip limit db).1 = Except.error e) ∧
    listingPage today q skip limit db
      = ((sortByDueDateDesc (matchingPayments today q db)).drop
          ((skip - 1) * limit).toNat).take limit.toNat ∧
    List.Sorted dueGE (listingPage today q skip limit db) ∧
    (∀ p ∈ listingPage today q skip limit db,
      p ∈ matchingPayments today q db) ∧
    (listingPage today q skip limit db).length ≤ limit.toNat := by
  refine ⟨?_, ?_, rfl, ?_, listingPage_subset_matching today q skip limit db, ?_⟩
  · intro h
    rw [get_payments_resp, attachEvidence_ok_of_forall _ _ h]
  · intro e he
    rw [get_payments_resp, he]
  · exact (List.sorted_insertionSort dueGE _).sublist
      (listingPage_sublist_sorted today q skip limit db)
  · exact le_trans (List.length_take_le _ _) (le_refl _)

/-- C7 witness: page 1 of size 10 over the two-payment database, whose
rows all carry evidence with bytes. -/
theorem get_payments_pagination_witness :
    ((∀ p ∈ listingPage 0 emptyQuery 1 10 twoPaymentDB,
        ∃ d, get_evidence twoPaymentDB.evidence p.oid = Except.ok d) →
      (get_payments 0 emptyQuery 1 10 twoPaymentDB).1
        = Except.ok (listingPage 0 emptyQuery 1 10 twoPaymentDB,
            (matchingPayments 0 emptyQuery twoPaymentDB).length)) ∧
    (∀ e, attachEvidence twoPaymentDB.evidence
          (listingPage 0 emptyQuery 1 10 twoPaymentDB)
        = Except.error e →
      (get_payments 0 emptyQuery 1 10 twoPaymentDB).1 = Except.error e) ∧
    listingPage 0 emptyQuery 1 10 twoPaymentDB
      = ((sortByDueDateDesc (matchingPayments 0 emptyQuery twoPaymentDB)).drop
          (((1 : Int) - 1) * 10).toNat).take (10 : Int).toNat ∧
    List.Sorted dueGE (listingPage 0 emptyQuery 1 10 twoPaymentDB) ∧
    (∀ p ∈ listingPage 0 emptyQuery 1 10 twoPaymentDB,
      p ∈ matchingPayments 0 emptyQuery twoPaymentDB) ∧
    (listingPage 0 emptyQuery 1 10 twoPaymentDB).length ≤ (10 : Int).toNat :=
  get_payments_pagination 0 emptyQuery 1 10 twoPaymentDB (by decide)


/-- C3 counterexample: the CSV import formula
`round(due*(1-d/100)*(1+t/100), 2)` and the listing formula
`round(due - due*d/100 + due*t/100, 2)` disagree at
`due_amount = 100, discount = 10, tax = 10`: the import computes 99.0
(the tax applies to the discounted amount) while the listing computes
100.0 (discount and tax both apply to the raw amount). -/
theorem csv_vs_listing_total_due_counterexample :
    calculate_total_due (PdVal.num 100) (PdVal.num 10) (PdVal.num 10)
      ≠ PdVal.num (listingTotalDue 100 10 10) := by decide

/-- C3 (amended): the import-time `calculate_total_due` agrees with the
listing-time recompute exactly up to the cross term
`due_amount*discount*tax/10000`; in particular the two formulas coincide
whenever `discount_percent = 0` or `tax_percent = 0`. -/
theorem csv_total_due_matches_listing_without_cross_term (due d t : ℚ)
    (h : d = 0 ∨ t = 0) :
    calculate_total_due (PdVal.num due) (PdVal.num d) (PdVal.num t)
      = PdVal.num (listingTotalDue due d t) := by
  have args : ∀ x y : ℚ, x = y → PdVal.num (round2 x) = PdVal.num (round2 y) :=
    fun x y hxy => by rw [hxy]
  rcases h with rfl | rfl
  · by_cases ht : t = 0 <;>
      simp only [calculate_total_due, truthyOrZero, listingTotalDue, if_pos rfl, ht,
        if_true, if_false, ite_self] <;>
      exact args _ _ (by ring)
  · by_cases hd : d = 0 <;>
      simp only [calculate_total_due, truthyOrZero, listingTotalDue, if_pos rfl, hd,
        if_true, if_false, ite_self] <;>
      exact args _ _ (by ring)

/-- C3 witness: at `due_amount = 100, discount = 0, tax = 10` both formulas
give 110.0. -/
theorem csv_total_due_matches_listing_witness :
    calculate_total_due (PdVal.num 100) (PdVal.num 0) (PdVal.num 10)
      = PdVal.num (listingTotalDue 100 0 10) :=
  csv_total_due_matches_listing_without_cross_term 100 0 10 (Or.inl rfl)

/-- C8: the CSV row with added date 1700000000 (epoch seconds), due date
"2024-01-15", empty discount, tax "10" and due amount "100" normalizes to
a record with the added date rendered as a display string, the due date
parsed as the calendar date 2024-01-15, the empty discount coerced to 0,
and `total_due = 110.0`. -/
theorem csv_roundtrip_example :
    normalize_row ⟨1700000000, "2024-01-15", "", "10", "100"⟩
      = { payee_added_date_utc := "Nov 14, 2023, 10:13 PM"
          payee_due_date := some (2024, 1, 15)
          discount_percent := PdVal.num 0
          tax_percent := PdVal.num 10
          due_amount := PdVal.num 100
          total_due := PdVal.num 110 } := by decide

/-- C9 counterexample: a row whose `due_amount` is the unparseable "abc" is
coerced by `to_numeric` to NaN — a float, not `None` — so
`Payment(**payment_data)` validation of the required float field passes,
the row is inserted with a NaN due amount, and the import continues: with
a following well-formed row, both rows are inserted and no error is
raised, contradicting the claimed fail-fast abort. -/
theorem csv_unparseable_amount_counterexample :
    (normalize_row badAmountRow).due_amount = PdVal.nan ∧
    (normalize_row badAmountRow).due_amount ≠ PdVal.null ∧
    paymentRowValid (normalize_row badAmountRow) = true ∧
    save_to_normalize_csv_to_db [normalize_row badAmountRow, normalize_row goodRow]
      = ([normalize_row badAmountRow, normalize_row goodRow], false) := by decide

/-- C9 (amended): `pd.to_numeric(..., errors="coerce")` maps every cell to
a numeric value or NaN, never `None`; NaN is accepted by the required
`due_amount: float` pydantic field, so a normalized import never aborts on
an unparseable due amount — every normalized row is inserted and no error
is raised. -/
theorem csv_import_never_aborts_on_due_amount (rows : List CsvRow) :
    save_to_normalize_csv_to_db (rows.map normalize_row)
      = (rows.map normalize_row, false) := by
  induction rows with
  | nil => rfl
  | cons r rest ih =>
    have hv : paymentRowValid (normalize_row r) = true := by
      simp only [paymentRowValid, normalize_row]
      exact floatFieldValid_to_numeric r.due_amount
    simp [save_to_normalize_csv_to_db, hv, ih]

end PaymentApp
